import Mathlib

/-
Verification of the WellnessBot wellness-assistant program
(src/CMPSC30_WellAss_RichardWong.cpp).

Shallow embedding conventions:
- C++ `double` values are modelled as exact rationals (ℚ); all the
  program performs on them is +, -, *, /, pow with exponent 2, and
  comparisons, so the rational semantics is the ideal-arithmetic
  reading of the numeric formulas.
- C++ `int` is modelled as ℤ, `std::string` as `String`.
- `std::transform(..., ::tolower)` is modelled by mapping the ASCII
  `Char.toLower` over the characters of the string.
- The `for`-loop with `break` over ACTIVITY_MULTIPLIERS is modelled by
  a first-match list lookup returning `Option ℚ`; when no entry
  matches, the C++ code leaves `profile.dailyCalories` unassigned,
  which we model by the field keeping its previous value.
- The interactive retry loops (`getValidInput`, `getValidStringInput`)
  are modelled by their single-attempt acceptance step: an `Option`
  holding the value the loop would deliver when the attempt is valid.
-/

namespace WellnessBot

/-- Character-wise ASCII lowercasing of a string, modelling
`std::transform(s.begin(), s.end(), s.begin(), ::tolower)`. -/
def strToLower (s : String) : String := ⟨s.data.map Char.toLower⟩

/-- The user profile record, with the raw fields collected from input and
the derived fields `bmi`, `bmr`, `dailyCalories` (uninitialised in C++
until `calculateMetrics` writes them; here they carry whatever value the
record was created with, mirroring an indeterminate cell). -/
structure UserProfile where
  age : ℤ
  gender : String
  height : ℚ
  weight : ℚ
  activityLevel : String
  sleepHours : ℤ
  lifestyle : String
  dietaryPref : String
  bmi : ℚ
  bmr : ℚ
  dailyCalories : ℚ

/-- The ACTIVITY_MULTIPLIERS table of the source. -/
def ACTIVITY_MULTIPLIERS : List (String × ℚ) :=
  [("sedentary", 1.2),
   ("lightly active", 1.375),
   ("moderately active", 1.55),
   ("very active", 1.725)]

/-- The nutrient-ratio constants of the source (struct MacroRatio). -/
def carbsRatio : ℚ := 0.5

/-- Protein share of daily calories (struct MacroRatio, field protein). -/
def proteinRatio : ℚ := 0.2

/-- Fat share of daily calories (struct MacroRatio, field fats). -/
def fatsRatio : ℚ := 0.3

/-- Energy density constant CALORIES_PER_GRAM_PROTEIN. -/
def CALORIES_PER_GRAM_PROTEIN : ℚ := 4.0

/-- Energy density constant CALORIES_PER_GRAM_CARBS. -/
def CALORIES_PER_GRAM_CARBS : ℚ := 4.0

/-- Energy density constant CALORIES_PER_GRAM_FAT. -/
def CALORIES_PER_GRAM_FAT : ℚ := 9.0

/-- BMI threshold (struct BMIThresholds, field underweight). -/
def underweightThreshold : ℚ := 18.5

/-- BMI threshold (struct BMIThresholds, field normal). -/
def normalThreshold : ℚ := 24.9

/-- BMI threshold (struct BMIThresholds, field overweight). -/
def overweightThreshold : ℚ := 29.9

/-- `isValidGender`: lowercase the input, accept "male" or "female". -/
def isValidGender (gender : String) : Bool :=
  let lower := strToLower gender
  lower == "male" || lower == "female"

/-- `isValidActivityLevel`: lowercase, accept one of the four levels. -/
def isValidActivityLevel (level : String) : Bool :=
  let lower := strToLower level
  lower == "sedentary" || lower == "lightly active" ||
    lower == "moderately active" || lower == "very active"

/-- `isValidLifestyle`: lowercase, accept "smoking", "alcohol" or "none". -/
def isValidLifestyle (lifestyle : String) : Bool :=
  let lower := strToLower lifestyle
  lower == "smoking" || lower == "alcohol" || lower == "none"

/-- `isValidDietaryPref`: lowercase, accept "vegetarian", "vegan", "none". -/
def isValidDietaryPref (pref : String) : Bool :=
  let lower := strToLower pref
  lower == "vegetarian" || lower == "vegan" || lower == "none"

/-- Acceptance condition of `getValidInput<T>`: the parsed value is kept
iff `value >= min_value && value <= max_value` (inclusive bounds), for any
ordered type, mirroring the C++ template. -/
def isInRange {α : Type} [LE α] [∀ a b : α, Decidable (a ≤ b)]
    (value minValue maxValue : α) : Bool :=
  decide (minValue ≤ value) && decide (value ≤ maxValue)

/-- One acceptance step of `getValidStringInput`: when the validation
function accepts the raw input, the loop lowercases it in place and
returns it; otherwise this attempt delivers nothing and the loop
re-prompts. -/
def getValidStringInputOnce (validationFunc : String → Bool)
    (input : String) : Option String :=
  if validationFunc input then some (strToLower input) else none

/-- First-match lookup modelling the `for (const auto& activity :
ACTIVITY_MULTIPLIERS)` loop with `break` in `calculateMetrics`. -/
def lookupMultiplier (level : String) : List (String × ℚ) → Option ℚ
  | [] => none
  | (l, m) :: rest => if l = level then some m else lookupMultiplier level rest

/-- `WellnessBot::calculateMetrics`: writes `bmi`, `bmr` and (when the
activity level matches a table entry) `dailyCalories` into the profile;
on no match `dailyCalories` is left as it was (unassigned in C++). -/
def calculateMetrics (p : UserProfile) : UserProfile :=
  let bmi := p.weight / p.height ^ 2
  let bmr :=
    if p.gender = "male" then
      88.362 + 13.397 * p.weight + 4.799 * p.height * 100 - 5.677 * (p.age : ℚ)
    else
      447.593 + 9.247 * p.weight + 3.098 * p.height * 100 - 4.330 * (p.age : ℚ)
  let dailyCalories :=
    match lookupMultiplier p.activityLevel ACTIVITY_MULTIPLIERS with
    | some m => bmr * m
    | none => p.dailyCalories
  { p with bmi := bmi, bmr := bmr, dailyCalories := dailyCalories }

/-- The BMI category string printed by `displayResults`. -/
def bmiCategory (bmi : ℚ) : String :=
  if bmi < underweightThreshold then "Underweight"
  else if bmi < normalThreshold then "Normal weight"
  else if bmi < overweightThreshold then "Overweight"
  else "Obese"

/-- Carbohydrate grams displayed by `displayResults`. -/
def carbsGrams (dailyCalories : ℚ) : ℚ :=
  dailyCalories * carbsRatio / CALORIES_PER_GRAM_CARBS

/-- Protein grams displayed by `displayResults`. -/
def proteinGrams (dailyCalories : ℚ) : ℚ :=
  dailyCalories * proteinRatio / CALORIES_PER_GRAM_PROTEIN

/-- Fat grams displayed by `displayResults`. -/
def fatGrams (dailyCalories : ℚ) : ℚ :=
  dailyCalories * fatsRatio / CALORIES_PER_GRAM_FAT

/-- The two exercise advice blocks of `provideRecommendations`. -/
inductive ExerciseBlock : Type where
  | lowImpact : ExerciseBlock
  | balanced : ExerciseBlock
  deriving DecidableEq

/-- The exercise branch of `provideRecommendations`:
`if (profile.bmi >= bmiThresholds.normal)` selects the low-impact
weight-management block, else the maintain-balanced-routine block. -/
def exerciseRecommendation (bmi : ℚ) : ExerciseBlock :=
  if bmi ≥ normalThreshold then ExerciseBlock.lowImpact
  else ExerciseBlock.balanced

/-- Claim C1: for every profile with weight w > 0 and height h > 0, the
BMI written by `calculateMetrics` is exactly w / h ^ 2 (rational
arithmetic, hence in particular within tolerance 1e-9). -/
theorem calculateMetrics_bmi_exact (p : UserProfile)
    (hw : 0 < p.weight) (hh : 0 < p.height) :
    (calculateMetrics p).bmi = p.weight / p.height ^ 2 := by
  simp [calculateMetrics]

/-- Witness for C1: a concrete profile (weight 75 kg, height 1.8 m). -/
theorem calculateMetrics_bmi_exact_witness :
    (calculateMetrics
      ⟨25, "male", 1.8, 75, "moderately active", 6, "none", "none", 0, 0, 0⟩).bmi
      = 75 / (1.8 : ℚ) ^ 2 :=
  calculateMetrics_bmi_exact
    ⟨25, "male", 1.8, 75, "moderately active", 6, "none", "none", 0, 0, 0⟩
    (by norm_num) (by norm_num)

theorem bmiCategory_underweight_iff (bmi : ℚ) :
    bmiCategory bmi = "Underweight" ↔ bmi < 18.5 := by
  unfold bmiCategory underweightThreshold normalThreshold overweightThreshold
  split_ifs with h₁ h₂ h₃ <;> simp_all <;> linarith

theorem bmiCategory_normal_iff (bmi : ℚ) :
    bmiCategory bmi = "Normal weight" ↔ 18.5 ≤ bmi ∧ bmi < 24.9 := by
  unfold bmiCategory underweightThreshold normalThreshold overweightThreshold
  split_ifs with h₁ h₂ h₃ <;> simp_all <;> intros <;> linarith

theorem bmiCategory_overweight_iff (bmi : ℚ) :
    bmiCategory bmi = "Overweight" ↔ 24.9 ≤ bmi ∧ bmi < 29.9 := by
  unfold bmiCategory underweightThreshold normalThreshold overweightThreshold
  split_ifs with h₁ h₂ h₃ <;> simp_all <;> intros <;> linarith

theorem bmiCategory_obese_iff (bmi : ℚ) :
    bmiCategory bmi = "Obese" ↔ 29.9 ≤ bmi := by
  unfold bmiCategory underweightThreshold normalThreshold overweightThreshold
  split_ifs with h₁ h₂ h₃ <;> simp_all <;> intros <;> linarith

/-- Claim C2: the BMI category is a pure function of bmi with bands
half-open on the lower side, and the boundary points 18.5, 24.9, 29.9
fall into the upper band each time. -/
theorem bmiCategory_bands (bmi : ℚ) :
    (bmiCategory bmi = "Underweight" ↔ bmi < 18.5) ∧
    (bmiCategory bmi = "Normal weight" ↔ 18.5 ≤ bmi ∧ bmi < 24.9) ∧
    (bmiCategory bmi = "Overweight" ↔ 24.9 ≤ bmi ∧ bmi < 29.9) ∧
    (bmiCategory bmi = "Obese" ↔ 29.9 ≤ bmi) ∧
    bmiCategory 18.5 = "Normal weight" ∧
    bmiCategory 24.9 = "Overweight" ∧
    bmiCategory 29.9 = "Obese" :=
  ⟨bmiCategory_underweight_iff bmi, bmiCategory_normal_iff bmi,
   bmiCategory_overweight_iff bmi, bmiCategory_obese_iff bmi,
   (bmiCategory_normal_iff 18.5).2 (by norm_num),
   (bmiCategory_overweight_iff 24.9).2 (by norm_num),
   (bmiCategory_obese_iff 29.9).2 (by norm_num)⟩

/-- Claim C5: the three gram formulas of `displayResults`, and the exact
caloric round-trip carbs*4 + protein*4 + fat*9 = dailyCalories for every
dailyCalories value. -/
theorem macroGrams_roundtrip (dailyCalories : ℚ) :
    carbsGrams dailyCalories = dailyCalories * 0.50 / 4.0 ∧
    proteinGrams dailyCalories = dailyCalories * 0.20 / 4.0 ∧
    fatGrams dailyCalories = dailyCalories * 0.30 / 9.0 ∧
    carbsGrams dailyCalories * 4 + proteinGrams dailyCalories * 4 +
      fatGrams dailyCalories * 9 = dailyCalories := by
  unfold carbsGrams proteinGrams fatGrams carbsRatio proteinRatio fatsRatio
    CALORIES_PER_GRAM_CARBS CALORIES_PER_GRAM_PROTEIN CALORIES_PER_GRAM_FAT
  norm_num
  ring

/-- Claim C8: `getValidInput` accepts a parsed value iff it lies within
the inclusive bounds, and for the age field with bounds [1, 120] the
values 0 and 121 are rejected while 1 and 120 are accepted. -/
theorem isInRange_inclusive :
    (∀ v lo hi : ℤ, isInRange v lo hi = true ↔ lo ≤ v ∧ v ≤ hi) ∧
    (∀ v lo hi : ℚ, isInRange v lo hi = true ↔ lo ≤ v ∧ v ≤ hi) ∧
    isInRange (0 : ℤ) 1 120 = false ∧
    isInRange (121 : ℤ) 1 120 = false ∧
    isInRange (1 : ℤ) 1 120 = true ∧
    isInRange (120 : ℤ) 1 120 = true := by
  refine ⟨?_, ?_, by decide, by decide, by decide, by decide⟩ <;>
    intro v lo hi <;> simp [isInRange]

/-- Claim C9: the exercise recommendation selects the low-impact
weight-management block exactly when bmi ≥ 24.9, equivalently exactly
when the BMI category is Overweight or Obese, and the balanced-routine
block otherwise. -/
theorem exerciseRecommendation_rule (bmi : ℚ) :
    (exerciseRecommendation bmi = ExerciseBlock.lowImpact ↔ 24.9 ≤ bmi) ∧
    (exerciseRecommendation bmi = ExerciseBlock.lowImpact ↔
      (bmiCategory bmi = "Overweight" ∨ bmiCategory bmi = "Obese")) ∧
    (exerciseRecommendation bmi = ExerciseBlock.balanced ↔ bmi < 24.9) := by
  unfold exerciseRecommendation bmiCategory
    underweightThreshold normalThreshold overweightThreshold
  refine ⟨?_, ?_, ?_⟩ <;> split_ifs with h₁ h₂ h₃ <;>
    simp_all <;> linarith

/-- Counterexample to claim C3: male and female BMR formulas do NOT
always produce different results at identical age/height/weight.  At
age 10, height 1 m, weight 202601/4150 kg (about 48.82 kg) — all inside
the validated domains [1,120], [0.5,2.5], [20,300] — the two formulas
coincide exactly. -/
theorem bmr_formulas_can_coincide :
    (calculateMetrics
      ⟨10, "male", 1, 202601/4150, "sedentary", 8, "none", "none", 0, 0, 0⟩).bmr
    = (calculateMetrics
      ⟨10, "female", 1, 202601/4150, "sedentary", 8, "none", "none", 0, 0, 0⟩).bmr
    ∧ isInRange (10 : ℤ) 1 120 = true
    ∧ isInRange ((1 : ℚ)) 0.5 2.5 = true
    ∧ isInRange ((202601 : ℚ)/4150) 20 300 = true := by
  refine ⟨?_, by decide, ?_, ?_⟩
  · simp only [calculateMetrics]
    norm_num
  · simp only [isInRange]
    norm_num
  · simp only [isInRange]
    norm_num

/-- Claim C3 (amended): for every profile, gender "male" receives the
male closed-form BMR and gender "female" the female closed-form BMR; at
identical age/height/weight the two formulas produce different results
exactly when 4.15*weight + 170.1*height differs from
359.231 + 1.347*age (so they differ generically, but coincide on that
line — see the counterexample). -/
theorem bmr_gender_exact (p : UserProfile) :
    (p.gender = "male" →
      (calculateMetrics p).bmr
        = 88.362 + 13.397 * p.weight + 4.799 * (p.height * 100)
          - 5.677 * (p.age : ℚ)) ∧
    (p.gender = "female" →
      (calculateMetrics p).bmr
        = 447.593 + 9.247 * p.weight + 3.098 * (p.height * 100)
          - 4.330 * (p.age : ℚ)) ∧
    ((88.362 + 13.397 * p.weight + 4.799 * (p.height * 100)
        - 5.677 * (p.age : ℚ)
      = 447.593 + 9.247 * p.weight + 3.098 * (p.height * 100)
        - 4.330 * (p.age : ℚ))
      ↔ 4.15 * p.weight + 170.1 * p.height = 359.231 + 1.347 * (p.age : ℚ)) := by
  refine ⟨?_, ?_, ?_⟩
  · intro h
    simp [calculateMetrics, h]
    ring
  · intro h
    simp [calculateMetrics, h]
    ring
  · constructor <;> intro h <;> nlinarith [h]

/-- Witness for C3: the male branch of `bmr_gender_exact` at a concrete
profile (age 25, height 1.8 m, weight 75 kg). -/
theorem bmr_gender_exact_witness :
    (calculateMetrics
      ⟨25, "male", 1.8, 75, "moderately active", 6, "none", "none", 0, 0, 0⟩).bmr
      = 1815.032 := by
  have h := (bmr_gender_exact
    ⟨25, "male", 1.8, 75, "moderately active", 6, "none", "none", 0, 0, 0⟩).1 rfl
  rw [h]
  push_cast
  norm_num

/-- Claim C4: for each of the four canonical activity strings,
`calculateMetrics` sets dailyCalories to bmr times the table
multiplier. -/
theorem dailyCalories_multiplier (p : UserProfile) :
    (p.activityLevel = "sedentary" →
      (calculateMetrics p).dailyCalories = (calculateMetrics p).bmr * 1.2) ∧
    (p.activityLevel = "lightly active" →
      (calculateMetrics p).dailyCalories = (calculateMetrics p).bmr * 1.375) ∧
    (p.activityLevel = "moderately active" →
      (calculateMetrics p).dailyCalories = (calculateMetrics p).bmr * 1.55) ∧
    (p.activityLevel = "very active" →
      (calculateMetrics p).dailyCalories = (calculateMetrics p).bmr * 1.725) := by
  refine ⟨?_, ?_, ?_, ?_⟩ <;> intro h <;>
    simp [calculateMetrics, lookupMultiplier, ACTIVITY_MULTIPLIERS, h]

/-- Witness for C4: a concrete sedentary profile. -/
theorem dailyCalories_multiplier_witness :
    (calculateMetrics
      ⟨25, "male", 1.8, 75, "sedentary", 6, "none", "none", 0, 0, 0⟩).dailyCalories
      = (calculateMetrics
      ⟨25, "male", 1.8, 75, "sedentary", 6, "none", "none", 0, 0, 0⟩).bmr * 1.2 :=
  (dailyCalories_multiplier
    ⟨25, "male", 1.8, 75, "sedentary", 6, "none", "none", 0, 0, 0⟩).1 rfl

/-- Claim C6: when activityLevel matches none of the four table entries,
the lookup loop never assigns dailyCalories (the field keeps its prior,
indeterminate value), while bmi and bmr are still computed exactly as in
the matching case and no raw field is touched. -/
theorem dailyCalories_unset_on_no_match (p : UserProfile)
    (h1 : p.activityLevel ≠ "sedentary")
    (h2 : p.activityLevel ≠ "lightly active")
    (h3 : p.activityLevel ≠ "moderately active")
    (h4 : p.activityLevel ≠ "very active") :
    (calculateMetrics p).dailyCalories = p.dailyCalories ∧
    (calculateMetrics p).bmi = p.weight / p.height ^ 2 ∧
    (calculateMetrics p).bmr
      = (if p.gender = "male" then
          88.362 + 13.397 * p.weight + 4.799 * p.height * 100
            - 5.677 * (p.age : ℚ)
        else
          447.593 + 9.247 * p.weight + 3.098 * p.height * 100
            - 4.330 * (p.age : ℚ)) ∧
    (calculateMetrics p).age = p.age ∧
    (calculateMetrics p).gender = p.gender ∧
    (calculateMetrics p).height = p.height ∧
    (calculateMetrics p).weight = p.weight ∧
    (calculateMetrics p).activityLevel = p.activityLevel ∧
    (calculateMetrics p).sleepHours = p.sleepHours ∧
    (calculateMetrics p).lifestyle = p.lifestyle ∧
    (calculateMetrics p).dietaryPref = p.dietaryPref := by
  have hnone : lookupMultiplier p.activityLevel ACTIVITY_MULTIPLIERS = none := by
    simp [lookupMultiplier, ACTIVITY_MULTIPLIERS,
      Ne.symm h1, Ne.symm h2, Ne.symm h3, Ne.symm h4]
  simp [calculateMetrics, hnone]

/-- Witness for C6: a profile whose activity level "jogging" matches no
table entry keeps its prior dailyCalories value 0. -/
theorem dailyCalories_unset_on_no_match_witness :
    (calculateMetrics
      ⟨25, "male", 1.8, 75, "jogging", 6, "none", "none", 0, 0, 0⟩).dailyCalories
      = (0 : ℚ) :=
  (dailyCalories_unset_on_no_match
    ⟨25, "male", 1.8, 75, "jogging", 6, "none", "none", 0, 0, 0⟩
    (by decide) (by decide) (by decide) (by decide)).1

/-- Claim C7: `isValidGender` accepts a string iff its character-wise
lowercasing is "male" or "female" (so "MALE", "Male", "male" are all
accepted), and on acceptance `getValidStringInput` delivers the
lowercased form downstream. -/
theorem isValidGender_case_insensitive (s : String) :
    (isValidGender s = true ↔
      (strToLower s = "male" ∨ strToLower s = "female")) ∧
    (isValidGender s = true →
      getValidStringInputOnce isValidGender s = some (strToLower s)) ∧
    isValidGender "MALE" = true ∧
    isValidGender "Male" = true ∧
    isValidGender "male" = true ∧
    getValidStringInputOnce isValidGender "MALE" = some "male" ∧
    getValidStringInputOnce isValidGender "Male" = some "male" ∧
    getValidStringInputOnce isValidGender "male" = some "male" := by
  refine ⟨?_, ?_, by decide, by decide, by decide, by decide, by decide,
    by decide⟩
  · simp [isValidGender]
  · intro h
    simp [getValidStringInputOnce, h]

/-- Witness for C7: the acceptance-delivery implication at "FEMALE". -/
theorem isValidGender_case_insensitive_witness :
    getValidStringInputOnce isValidGender "FEMALE" = some "female" :=
  (isValidGender_case_insensitive "FEMALE").2.1 (by decide)

/-- Claim C10: the male BMR formula is applied exactly when the stored
gender is the string "male"; any other string — "female", "Male", or an
unvalidated value — takes the female branch. -/
theorem bmr_male_branch_only_exact_match (p : UserProfile) :
    ((calculateMetrics p).bmr
      = if p.gender = "male" then
          88.362 + 13.397 * p.weight + 4.799 * p.height * 100
            - 5.677 * (p.age : ℚ)
        else
          447.593 + 9.247 * p.weight + 3.098 * p.height * 100
            - 4.330 * (p.age : ℚ)) ∧
    (p.gender ≠ "male" →
      (calculateMetrics p).bmr
        = 447.593 + 9.247 * p.weight + 3.098 * p.height * 100
          - 4.330 * (p.age : ℚ)) := by
  constructor
  · simp [calculateMetrics]
  · intro h
    simp [calculateMetrics, h]

/-- Witness for C10: the mixed-case gender "Male" takes the female
branch. -/
theorem bmr_male_branch_only_exact_match_witness :
    (calculateMetrics
      ⟨25, "Male", 1.8, 75, "sedentary", 6, "none", "none", 0, 0, 0⟩).bmr
      = 447.593 + 9.247 * 75 + 3.098 * 1.8 * 100 - 4.330 * ((25 : ℤ) : ℚ) :=
  (bmr_male_branch_only_exact_match
    ⟨25, "Male", 1.8, 75, "sedentary", 6, "none", "none", 0, 0, 0⟩).2 (by decide)

end WellnessBot
